import Mathlib

/-!
Verification of the asynchronous-work bridge in `src/src/napi/node_api_async.c`
(ShadowNode N-API layer over the libuv thread pool).

Modelling conventions:
- A C pointer is `Option Nat`: `none` is NULL, `some k` an abstract address.
- The two static libuv callbacks (`iotjs_uv_work_cb`, `iotjs_uv_work_after_cb`)
  are embedded as pure functions from the stored work record to the list of
  observable events (callback invocations, scope open and close) they perform.
- The external collaborators (libuv pool, jerryx scope manager, the macros in
  `internal/node_api_internal.h`, which is not under `src/`) are modelled from
  the spec where the code is absent; each such definition carries a doc comment
  starting with `Modelled from the spec:`.
-/

set_option maxHeartbeats 1000000

/-- A C pointer: `none` models NULL, `some k` an abstract non-null address. -/
abbrev Ptr := Option Nat

/-- The napi status codes this translation unit produces or passes on
(`napi_ok`, `napi_invalid_arg`, `napi_generic_failure`, `napi_cancelled`
from the napi_status enum). -/
inductive NapiStatus where
  | ok
  | invalid_arg
  | generic_failure
  | cancelled
deriving DecidableEq, Repr

/-- libuv status code UV_ECANCELED (Linux value, `-(ECANCELED)` = -125). -/
def UV_ECANCELED : Int := -125

/-- libuv status code UV_EBUSY (Linux value, `-(EBUSY)` = -16). -/
def UV_EBUSY : Int := -16

/-- The record `iotjs_async_work_t` stored behind `req->data`: the owning
napi_env, the two diagnostic napi_values, the execute and complete function
pointers, and the user data pointer, exactly the fields set by
`napi_create_async_work`. -/
structure iotjs_async_work_t where
  env : Ptr
  async_resource : Ptr
  async_resource_name : Ptr
  execute : Ptr
  complete : Ptr
  data : Ptr
deriving DecidableEq, Repr

/-- The `uv_work_t` native handle: its `data` field points at the
`iotjs_async_work_t` record (we inline the pointee, since the code installs
it once at creation and never repoints it). -/
structure uv_work_t where
  data : iotjs_async_work_t
deriving DecidableEq, Repr

/-- Observable events performed by the two dispatch callbacks: an invocation
of the execute callback with its two arguments, an invocation of the complete
callback with its three arguments, and the jerryx scope open and close calls
surrounding the latter. -/
inductive Event where
  | execCall (env : Ptr) (data : Ptr)
  | openScope
  | completeCall (env : Ptr) (status : NapiStatus) (data : Ptr)
  | closeScope
deriving DecidableEq, Repr

/-- Whether an event is an invocation of the execute callback. -/
def Event.isExec : Event → Bool
  | .execCall _ _ => true
  | _ => false

/-- Whether an event is an invocation of the complete callback. -/
def Event.isCompleteCall : Event → Bool
  | .completeCall _ _ _ => true
  | _ => false

/-- Embedding of `iotjs_uv_work_cb` (the run slot handed to `uv_queue_work`):
if the stored execute pointer is non-null it calls
`execute(async_work->env, async_work->data)`, otherwise it does nothing.
The NAPI_ASSERT on a non-null `req->data` is reflected by taking the record
itself as input. -/
def iotjs_uv_work_cb (w : iotjs_async_work_t) : List Event :=
  if w.execute ≠ none then [.execCall w.env w.data] else []

/-- Embedding of `iotjs_uv_work_after_cb` (the done slot handed to
`uv_queue_work`): maps the pool status (0 to `napi_ok`, UV_ECANCELED to
`napi_cancelled`, anything else to `napi_generic_failure`) and, when the
stored complete pointer is non-null, opens a jerryx handle scope, calls
`complete(async_work->env, cb_status, async_work->data)`, and closes the
scope. -/
def iotjs_uv_work_after_cb (w : iotjs_async_work_t) (status : Int) : List Event :=
  let cb_status : NapiStatus :=
    if status = 0 then .ok
    else if status = UV_ECANCELED then .cancelled
    else .generic_failure
  if w.complete ≠ none then
    [.openScope, .completeCall w.env cb_status w.data, .closeScope]
  else []

/-- The outcome of `napi_create_async_work`: the returned status, whether each
of the two allocations (`uv_work_t` via IOTJS_ALLOC and `iotjs_async_work_t`
via IOTJS_ALLOC) was performed, and the value written through the `result`
out-parameter, if any. -/
structure CreateResult where
  status : NapiStatus
  allocatedWorkReq : Bool
  allocatedAsyncWork : Bool
  written : Option uv_work_t
deriving DecidableEq, Repr

/-- Embedding of `napi_create_async_work`. The NAPI_TRY_ENV guard is
modelled from the spec: `internal/node_api_internal.h` is not under `src/`;
the spec treats the environment as required opaque context, so the guard
rejects a null environment before anything else happens. The three
NAPI_WEAK_ASSERT checks then reject a null `result`, `execute` or `complete`
with `napi_invalid_arg` before any allocation, in the source order
(result, execute, complete). On success both records are allocated, every
supplied field is stored, the handle is written through `result`
(NAPI_ASSIGN), and `napi_ok` is returned. `resultSlot` is whether the
`result` out-pointer is non-null. -/
def napi_create_async_work (env : Ptr) (async_resource : Ptr)
    (async_resource_name : Ptr) (execute : Ptr) (complete : Ptr)
    (data : Ptr) (resultSlot : Bool) : CreateResult :=
  if env = none then ⟨.invalid_arg, false, false, none⟩
  else if resultSlot = false then ⟨.invalid_arg, false, false, none⟩
  else if execute = none then ⟨.invalid_arg, false, false, none⟩
  else if complete = none then ⟨.invalid_arg, false, false, none⟩
  else
    let async_work : iotjs_async_work_t :=
      ⟨env, async_resource, async_resource_name, execute, complete, data⟩
    let work_req : uv_work_t := ⟨async_work⟩
    ⟨.ok, true, true, some work_req⟩

/-- The outcome of `napi_delete_async_work`: the returned status and whether
each of the two `free` calls (on the `iotjs_async_work_t` record and on the
`uv_work_t` handle) was performed. -/
structure DeleteResult where
  status : NapiStatus
  freedAsyncWork : Bool
  freedWorkReq : Bool
deriving DecidableEq, Repr

/-- The per-item state of a submission inside the libuv pool, as the spec
describes the lifecycle: still waiting in the queue, currently running,
finished, or cancelled before it started. -/
inductive WorkState where
  | queued
  | executing
  | finished
  | cancelledBeforeStart
deriving DecidableEq, Repr

/-- Embedding of `napi_delete_async_work`: after the (spec-modelled)
NAPI_TRY_ENV guard it unconditionally frees the `iotjs_async_work_t` record
and then the `uv_work_t` handle and returns `napi_ok`. It takes the current
pool state of the item only to expose that the code never inspects it. -/
def napi_delete_async_work (env : Ptr) (work : uv_work_t)
    (itemState : WorkState) : DeleteResult :=
  if env = none then ⟨.invalid_arg, false, false⟩
  else ⟨.ok, true, true⟩

/-- Modelled from the spec: the diagnostic-string facility of the pool
(`uv_err_name` of libuv, an external collaborator); the spec only requires a
human-readable ASCII name per internal status code. -/
def uv_err_name (status : Int) : String :=
  if status = UV_ECANCELED then "ECANCELED"
  else if status = UV_EBUSY then "EBUSY"
  else "EUNKNOWN"

/-- The global `iotjs_environment_t` singleton returned by
`iotjs_environment_get`; we retain only the event loop handle that
`iotjs_environment_loop` extracts from it. -/
structure iotjs_environment_t where
  loop : Nat
deriving DecidableEq, Repr

/-- The outcome of `napi_queue_async_work`: the returned status, the attached
diagnostic string if any, how many `uv_queue_work` submission attempts were
made, and the loop handle passed to the attempt, if one was made. -/
structure QueueResult where
  status : NapiStatus
  errMsg : Option String
  submissions : Nat
  usedLoop : Option Nat
deriving DecidableEq, Repr

/-- Embedding of `napi_queue_async_work`: after the (spec-modelled)
NAPI_TRY_ENV guard, it fetches the global environment singleton via
`iotjs_environment_get`, takes its loop via `iotjs_environment_loop`, and
makes exactly one `uv_queue_work(loop, work_req, iotjs_uv_work_cb,
iotjs_uv_work_after_cb)` call. `uvSubmitStatus` is the status the pool
returns for that call (pool internals are external to this unit). On a
non-zero status the function returns `napi_generic_failure` carrying
`uv_err_name` of that status; otherwise `napi_ok`. -/
def napi_queue_async_work (globalEnv : iotjs_environment_t) (env : Ptr)
    (work : uv_work_t) (uvSubmitStatus : Int) : QueueResult :=
  if env = none then ⟨.invalid_arg, none, 0, none⟩
  else
    let loop := globalEnv.loop
    if uvSubmitStatus ≠ 0 then
      ⟨.generic_failure, some (uv_err_name uvSubmitStatus), 1, some loop⟩
    else ⟨.ok, none, 1, some loop⟩

/-- Modelled from the spec: the cooperative-cancellation primitive of the
pool (`uv_cancel` of libuv, an external collaborator). Per the spec it
succeeds only when the pool has not yet begun running the item, moving it to
CancelledBeforeStart; in every other state the request is rejected with a
busy status and the item is left as it was. -/
def uv_cancel : WorkState → Int × WorkState
  | .queued => (0, .cancelledBeforeStart)
  | s => (UV_EBUSY, s)

/-- The outcome of `napi_cancel_async_work`: the returned status, the
attached diagnostic string if any, and the pool state of the item after the
call. -/
structure CancelResult where
  status : NapiStatus
  errMsg : Option String
  poolState : WorkState
deriving DecidableEq, Repr

/-- Embedding of `napi_cancel_async_work`: after the (spec-modelled)
NAPI_TRY_ENV guard it calls `uv_cancel` on the handle; on a non-zero status
it returns `napi_generic_failure` carrying `uv_err_name` of that status,
otherwise `napi_ok`. -/
def napi_cancel_async_work (env : Ptr) (s : WorkState) : CancelResult :=
  if env = none then ⟨.invalid_arg, none, s⟩
  else
    let r := uv_cancel s
    if r.1 ≠ 0 then ⟨.generic_failure, some (uv_err_name r.1), r.2⟩
    else ⟨.ok, none, r.2⟩

/-- Modelled from the spec: how one run of a queued item ends at the pool.
Either the pool runs the run slot to completion and then the done slot with
status 0, or the item was cancelled before execution began and only the done
slot runs, with status UV_ECANCELED. -/
inductive PoolRun where
  | completed
  | cancelledBeforeStart
deriving DecidableEq, Repr

/-- Modelled from the spec: the per-item ordering guarantee of the pool
(the done callback strictly after the run callback has returned, or the run
callback never observed when cancelled before execution). The full event
trace one queued item produces. -/
def itemTrace (w : iotjs_async_work_t) : PoolRun → List Event
  | .completed => iotjs_uv_work_cb w ++ iotjs_uv_work_after_cb w 0
  | .cancelledBeforeStart => iotjs_uv_work_after_cb w UV_ECANCELED

/-- State of the jerryx scope manager: the stack of open handle scopes, each
holding the engine-level values created while it was on top, and the
multiset of values released so far. -/
structure ScopeState where
  scopes : List (List Nat)
  released : List Nat
deriving DecidableEq, Repr

/-- Modelled from the spec: the ScopeManager collaborator
(`jerryx_open_handle_scope` and `jerryx_close_handle_scope`). Opening pushes
an empty scope; a complete-callback invocation adds the values it creates
(the parameter `created`) to the innermost open scope; closing pops the
innermost scope and releases everything in it. The execute callback runs off
the engine thread and touches no scopes. -/
def scopeStep (created : List Nat) : ScopeState → Event → ScopeState
  | st, .openScope => ⟨[] :: st.scopes, st.released⟩
  | st, .completeCall _ _ _ =>
      match st.scopes with
      | top :: rest => ⟨(created ++ top) :: rest, st.released⟩
      | [] => st
  | st, .closeScope =>
      match st.scopes with
      | top :: rest => ⟨rest, st.released ++ top⟩
      | [] => st
  | st, .execCall _ _ => st

/-- Run the scope manager over an event trace. -/
def runScopes (created : List Nat) (init : ScopeState)
    (tr : List Event) : ScopeState :=
  tr.foldl (scopeStep created) init

/-- The domain-status mapping as the spec states it, for comparison with the
mapping the done callback performs: Ok on normal completion, Cancelled on
explicit cancellation, GenericFailure on any other non-zero pool status. -/
def specDomainStatus (poolStatus : Int) : NapiStatus :=
  if poolStatus = 0 then .ok
  else if poolStatus = UV_ECANCELED then .cancelled
  else .generic_failure

/-- True when no execute-callback invocation occurs at or after the first
complete-callback invocation in the trace. -/
def noExecFromComplete : List Event → Bool
  | [] => true
  | .completeCall _ _ _ :: rest => rest.all (fun e => !e.isExec)
  | _ :: rest => noExecFromComplete rest

theorem ptr_eq_some_of_ne_none (p : Ptr) (h : p ≠ none) : ∃ x, p = some x := by
  cases p with
  | none => exact absurd rfl h
  | some x => exact ⟨x, rfl⟩

/-- C1: for a WorkItem created with valid (non-null) execute and complete
callbacks and then queued, a run to normal completion invokes the complete
callback exactly once with domain status Ok; the execute callback is invoked
at most once; and in every pool run (normal completion or cancellation
before start) no execute invocation occurs once a complete invocation has
happened, so the complete callback runs only after the execute callback has
returned or the item was cancelled before execution began. -/
theorem C1_complete_once_with_ok (env ar arn ex co d : Ptr)
    (henv : env ≠ none) (hex : ex ≠ none) (hco : co ≠ none) :
    (napi_create_async_work env ar arn ex co d true).written =
      some ⟨⟨env, ar, arn, ex, co, d⟩⟩ ∧
    (itemTrace ⟨env, ar, arn, ex, co, d⟩ .completed).filter Event.isCompleteCall =
      [Event.completeCall env .ok d] ∧
    ((itemTrace ⟨env, ar, arn, ex, co, d⟩ .completed).filter Event.isExec).length ≤ 1 ∧
    (∀ run : PoolRun,
      noExecFromComplete (itemTrace ⟨env, ar, arn, ex, co, d⟩ run) = true) := by
  obtain ⟨e, rfl⟩ := ptr_eq_some_of_ne_none env henv
  obtain ⟨x, rfl⟩ := ptr_eq_some_of_ne_none ex hex
  obtain ⟨c, rfl⟩ := ptr_eq_some_of_ne_none co hco
  refine ⟨rfl, rfl, ?_, ?_⟩
  · exact Nat.le_refl 1
  · intro run
    cases run <;> rfl

/-- Witness for C1 at a concrete input. -/
theorem C1_witness :
    (napi_create_async_work (some 1) none none (some 10) (some 11) (some 3)
        true).written = some ⟨⟨some 1, none, none, some 10, some 11, some 3⟩⟩ ∧
    (itemTrace ⟨some 1, none, none, some 10, some 11, some 3⟩
        .completed).filter Event.isCompleteCall =
      [Event.completeCall (some 1) .ok (some 3)] ∧
    noExecFromComplete (itemTrace ⟨some 1, none, none, some 10, some 11, some 3⟩
        .cancelledBeforeStart) = true := by
  have h := C1_complete_once_with_ok (some 1) none none (some 10) (some 11)
    (some 3) (by decide) (by decide) (by decide)
  exact ⟨h.1, h.2.1, h.2.2.2 .cancelledBeforeStart⟩

/-- C2: the completion-dispatch callback maps pool status 0 to Ok,
UV_ECANCELED to Cancelled, and every other non-zero pool status to
GenericFailure, and the mapped status is exactly the one carried by the
single complete-callback invocation it performs. -/
theorem C2_status_mapping (w : iotjs_async_work_t) (s : Int)
    (hco : w.complete ≠ none) :
    (iotjs_uv_work_after_cb w s).filter Event.isCompleteCall =
      [Event.completeCall w.env (specDomainStatus s) w.data] ∧
    specDomainStatus 0 = .ok ∧
    specDomainStatus UV_ECANCELED = .cancelled ∧
    (∀ t : Int, t ≠ 0 → t ≠ UV_ECANCELED → specDomainStatus t = .generic_failure) := by
  obtain ⟨we, war, warn, wex, wco, wd⟩ := w
  obtain ⟨c, rfl⟩ := ptr_eq_some_of_ne_none wco hco
  refine ⟨rfl, rfl, by decide, ?_⟩
  intro t h0 hc
  simp [specDomainStatus, h0, hc]

/-- Witness for C2 at a concrete input. -/
theorem C2_witness :
    (iotjs_uv_work_after_cb ⟨some 1, none, none, some 10, some 11, some 3⟩
        7).filter Event.isCompleteCall =
      [Event.completeCall (some 1) (specDomainStatus 7) (some 3)] ∧
    specDomainStatus 7 = .generic_failure := by
  have h := C2_status_mapping ⟨some 1, none, none, some 10, some 11, some 3⟩ 7
    (by decide)
  exact ⟨h.1, h.2.2.2 7 (by decide) (by decide)⟩

/-- C3: create returns InvalidArgument and allocates nothing (no native
handle, no WorkItem record, nothing written to the result slot) whenever the
execute callback, complete callback, or result slot is null; otherwise,
given a valid environment, it allocates both records, stores every supplied
field, writes the handle through the result slot, and returns Ok. -/
theorem C3_create_checks :
    (∀ env ar arn ex co d : Ptr, ∀ rs : Bool,
        (ex = none ∨ co = none ∨ rs = false) →
        napi_create_async_work env ar arn ex co d rs =
          ⟨.invalid_arg, false, false, none⟩) ∧
    (∀ env ar arn ex co d : Ptr,
        env ≠ none → ex ≠ none → co ≠ none →
        napi_create_async_work env ar arn ex co d true =
          ⟨.ok, true, true, some ⟨⟨env, ar, arn, ex, co, d⟩⟩⟩) := by
  constructor
  · intro env ar arn ex co d rs h
    rcases h with h | h | h
    · subst h; cases env <;> cases rs <;> rfl
    · subst h; cases env <;> cases rs <;> cases ex <;> rfl
    · subst h; cases env <;> rfl
  · intro env ar arn ex co d henv hex hco
    obtain ⟨e, rfl⟩ := ptr_eq_some_of_ne_none env henv
    obtain ⟨x, rfl⟩ := ptr_eq_some_of_ne_none ex hex
    obtain ⟨c, rfl⟩ := ptr_eq_some_of_ne_none co hco
    rfl

/-- Witness for C3 at concrete inputs: one failing creation with a null
execute callback, one successful creation. -/
theorem C3_witness :
    napi_create_async_work (some 1) none none none (some 11) (some 3) true =
      ⟨.invalid_arg, false, false, none⟩ ∧
    napi_create_async_work (some 1) none none (some 10) (some 11) (some 3) true =
      ⟨.ok, true, true,
        some ⟨⟨some 1, none, none, some 10, some 11, some 3⟩⟩⟩ := by
  exact ⟨C3_create_checks.1 (some 1) none none none (some 11) (some 3) true
      (Or.inl rfl),
    C3_create_checks.2 (some 1) none none (some 10) (some 11) (some 3)
      (by decide) (by decide) (by decide)⟩

/-- C4: cancel succeeds exactly when the pool has not yet begun running the
item; from the executing or finished state it returns GenericFailure
carrying the pool diagnostic string and leaves the item state unchanged, the
item still runs to normal completion with the complete callback invoked
exactly once with Ok, and a Cancelled complete-callback invocation occurs
only in the cancelled-before-start run, never in the normal-completion
run. -/
theorem C4_cancel_only_before_start (env : Ptr) (w : iotjs_async_work_t)
    (henv : env ≠ none) (hex : w.execute ≠ none) (hco : w.complete ≠ none) :
    (∀ s : WorkState,
        (napi_cancel_async_work env s).status = .ok ↔ s = .queued) ∧
    (∀ s : WorkState, s = .executing ∨ s = .finished →
        napi_cancel_async_work env s =
          ⟨.generic_failure, some (uv_err_name UV_EBUSY), s⟩) ∧
    (itemTrace w .completed).filter Event.isCompleteCall =
      [Event.completeCall w.env .ok w.data] ∧
    Event.completeCall w.env .cancelled w.data ∈
      itemTrace w .cancelledBeforeStart ∧
    Event.completeCall w.env .cancelled w.data ∉ itemTrace w .completed := by
  obtain ⟨e, rfl⟩ := ptr_eq_some_of_ne_none env henv
  obtain ⟨we, war, warn, wex, wco, wd⟩ := w
  obtain ⟨x, rfl⟩ := ptr_eq_some_of_ne_none wex hex
  obtain ⟨c, rfl⟩ := ptr_eq_some_of_ne_none wco hco
  refine ⟨?_, ?_, rfl, ?_, ?_⟩
  · intro s
    cases s <;> simp [napi_cancel_async_work, uv_cancel, UV_EBUSY]
  · intro s h
    rcases h with h | h <;> subst h <;> rfl
  · simp [itemTrace, iotjs_uv_work_after_cb, UV_ECANCELED]
  · simp [itemTrace, iotjs_uv_work_cb, iotjs_uv_work_after_cb]

/-- Witness for C4 at a concrete input. -/
theorem C4_witness :
    (napi_cancel_async_work (some 1) .queued).status = .ok ∧
    napi_cancel_async_work (some 1) .executing =
      ⟨.generic_failure, some (uv_err_name UV_EBUSY), .executing⟩ ∧
    (itemTrace ⟨some 1, none, none, some 10, some 11, some 3⟩
        .completed).filter Event.isCompleteCall =
      [Event.completeCall (some 1) .ok (some 3)] := by
  have h := C4_cancel_only_before_start (some 1)
    ⟨some 1, none, none, some 10, some 11, some 3⟩
    (by decide) (by decide) (by decide)
  exact ⟨(h.1 .queued).mpr rfl, h.2.1 .executing (Or.inl rfl), h.2.2.1⟩

/-- C5: queue makes at most one submission attempt per call; with a valid
environment, a rejected submission (non-zero pool status) yields
GenericFailure carrying the pool diagnostic string for that status, and an
accepted submission yields Ok; in both cases exactly one attempt was
made. -/
theorem C5_queue_single_attempt (g : iotjs_environment_t) (env : Ptr)
    (w : uv_work_t) (st : Int) (henv : env ≠ none) :
    (∀ env2 : Ptr, ∀ st2 : Int,
        (napi_queue_async_work g env2 w st2).submissions ≤ 1) ∧
    (st ≠ 0 → napi_queue_async_work g env w st =
        ⟨.generic_failure, some (uv_err_name st), 1, some g.loop⟩) ∧
    (st = 0 → napi_queue_async_work g env w st =
        ⟨.ok, none, 1, some g.loop⟩) := by
  obtain ⟨e, rfl⟩ := ptr_eq_some_of_ne_none env henv
  refine ⟨?_, ?_, ?_⟩
  · intro env2 st2
    cases env2 with
    | none => simp [napi_queue_async_work]
    | some e2 =>
      simp only [napi_queue_async_work]
      split
      · simp
      · split <;> simp
  · intro h
    simp [napi_queue_async_work, h]
  · intro h
    subst h
    rfl

/-- Witness for C5 at concrete inputs. -/
theorem C5_witness :
    (napi_queue_async_work ⟨5⟩ (some 1) ⟨⟨some 1, none, none, some 10,
        some 11, some 3⟩⟩ UV_EBUSY).submissions ≤ 1 ∧
    napi_queue_async_work ⟨5⟩ (some 1) ⟨⟨some 1, none, none, some 10,
        some 11, some 3⟩⟩ UV_EBUSY =
      ⟨.generic_failure, some (uv_err_name UV_EBUSY), 1, some 5⟩ ∧
    napi_queue_async_work ⟨5⟩ (some 1) ⟨⟨some 1, none, none, some 10,
        some 11, some 3⟩⟩ 0 = ⟨.ok, none, 1, some 5⟩ := by
  have h := C5_queue_single_attempt ⟨5⟩ (some 1)
    ⟨⟨some 1, none, none, some 10, some 11, some 3⟩⟩ UV_EBUSY (by decide)
  have h0 := C5_queue_single_attempt ⟨5⟩ (some 1)
    ⟨⟨some 1, none, none, some 10, some 11, some 3⟩⟩ 0 (by decide)
  exact ⟨h.1 (some 1) UV_EBUSY, h.2.1 (by decide), h0.2.2 rfl⟩

/-- C6: in the completion dispatch, a handle scope is opened immediately
before the complete callback is invoked and closed immediately after it
returns, on the single straight-line path of the code; running the scope
manager over the dispatch trace leaves the number of open scopes unchanged
for every initial scope stack, and every engine-level value the complete
callback creates inside the scope ends up released. -/
theorem C6_scope_balance (w : iotjs_async_work_t) (s : Int)
    (init : ScopeState) (created : List Nat) (hco : w.complete ≠ none) :
    iotjs_uv_work_after_cb w s =
      [.openScope, .completeCall w.env (specDomainStatus s) w.data,
        .closeScope] ∧
    (runScopes created init (iotjs_uv_work_after_cb w s)).scopes.length =
      init.scopes.length ∧
    (∀ v ∈ created,
        v ∈ (runScopes created init (iotjs_uv_work_after_cb w s)).released) := by
  obtain ⟨we, war, warn, wex, wco, wd⟩ := w
  obtain ⟨c, rfl⟩ := ptr_eq_some_of_ne_none wco hco
  refine ⟨rfl, rfl, ?_⟩
  intro v hv
  show v ∈ init.released ++ (created ++ [])
  simp [hv]

/-- Witness for C6 at a concrete input. -/
theorem C6_witness :
    iotjs_uv_work_after_cb ⟨some 1, none, none, some 10, some 11, some 3⟩ 0 =
      [.openScope, .completeCall (some 1) (specDomainStatus 0) (some 3),
        .closeScope] ∧
    (runScopes [4, 5] ⟨[[9]], [8]⟩
        (iotjs_uv_work_after_cb ⟨some 1, none, none, some 10, some 11,
          some 3⟩ 0)).scopes.length = 1 ∧
    4 ∈ (runScopes [4, 5] ⟨[[9]], [8]⟩
        (iotjs_uv_work_after_cb ⟨some 1, none, none, some 10, some 11,
          some 3⟩ 0)).released := by
  have h := C6_scope_balance ⟨some 1, none, none, some 10, some 11, some 3⟩
    0 ⟨[[9]], [8]⟩ [4, 5] (by decide)
  exact ⟨h.1, h.2.1, h.2.2 4 (by decide)⟩

/-- C7 counterexample: the execute invocation is not a function of userData
alone — two work records that agree on userData (and on every field except
the stored owner environment) produce different execute invocations, because
the code calls `execute(async_work->env, async_work->data)`: the stored
owner environment, which is WorkItem state beyond userData, is handed to the
execute callback. -/
theorem C7_counterexample :
    iotjs_uv_work_cb ⟨some 1, none, none, some 10, some 11, some 3⟩ ≠
      iotjs_uv_work_cb ⟨some 2, none, none, some 10, some 11, some 3⟩ ∧
    iotjs_uv_work_cb ⟨some 1, none, none, some 10, some 11, some 3⟩ =
      [Event.execCall (some 1) (some 3)] := by
  decide

/-- C7 (amended): when the pool runs a WorkItem, the execute callback is
invoked at most once on the worker thread, receiving exactly the stored
owner environment and the caller-supplied userData pointer as its two
arguments; no other WorkItem state (diagnostic tags, complete callback)
influences the invocation. -/
theorem C7_exec_args (w : iotjs_async_work_t) (hex : w.execute ≠ none) :
    iotjs_uv_work_cb w = [Event.execCall w.env w.data] ∧
    (iotjs_uv_work_cb w).length ≤ 1 ∧
    (∀ r r2 c : Ptr,
        iotjs_uv_work_cb { w with async_resource := r, async_resource_name := r2, complete := c } = iotjs_uv_work_cb w) := by
  obtain ⟨we, war, warn, wex, wco, wd⟩ := w
  obtain ⟨x, rfl⟩ := ptr_eq_some_of_ne_none wex hex
  exact ⟨rfl, Nat.le_refl 1, fun r r2 c => rfl⟩

/-- Witness for the amended C7 at a concrete input. -/
theorem C7_witness :
    iotjs_uv_work_cb ⟨some 4, some 7, some 8, some 10, some 11, some 3⟩ =
      [Event.execCall (some 4) (some 3)] ∧
    iotjs_uv_work_cb ⟨some 4, none, none, some 10, some 11, none⟩ =
      iotjs_uv_work_cb ⟨some 4, some 7, some 8, some 10, some 11, none⟩ := by
  have h1 := C7_exec_args ⟨some 4, some 7, some 8, some 10, some 11, some 3⟩
    (by decide)
  have h2 := C7_exec_args ⟨some 4, some 7, some 8, some 10, some 11, none⟩
    (by decide)
  exact ⟨h1.1, h2.2.2 none none (some 11)⟩

/-- C8: with a valid environment, delete frees the WorkItem record and the
native handle and returns Ok, and its outcome is identical for every pool
state of the item — the code performs no check that the item is not queued
or executing. -/
theorem C8_delete_unchecked (env : Ptr) (w : uv_work_t) (henv : env ≠ none) :
    (∀ s : WorkState, napi_delete_async_work env w s = ⟨.ok, true, true⟩) ∧
    (∀ s s2 : WorkState,
        napi_delete_async_work env w s = napi_delete_async_work env w s2) := by
  obtain ⟨e, rfl⟩ := ptr_eq_some_of_ne_none env henv
  exact ⟨fun s => rfl, fun s s2 => rfl⟩

/-- Witness for C8 at a concrete input. -/
theorem C8_witness :
    napi_delete_async_work (some 1)
        ⟨⟨some 1, none, none, some 10, some 11, some 3⟩⟩ .executing =
      ⟨.ok, true, true⟩ ∧
    napi_delete_async_work (some 1)
        ⟨⟨some 1, none, none, some 10, some 11, some 3⟩⟩ .queued =
      napi_delete_async_work (some 1)
        ⟨⟨some 1, none, none, some 10, some 11, some 3⟩⟩ .finished := by
  have h := C8_delete_unchecked (some 1)
    ⟨⟨some 1, none, none, some 10, some 11, some 3⟩⟩ (by decide)
  exact ⟨h.1 .executing, h.2 .queued .finished⟩

/-- C9 counterexample: the loop the submission uses is not obtained from the
supplied owning context — with the same supplied environment the used loop
follows the global environment singleton (loop 5 versus loop 9), and with
different supplied environments and the same global it is unchanged;
moreover the stored owner context is used for something other than locating
the event loop: it is passed as the first argument to the complete
callback. -/
theorem C9_counterexample :
    (napi_queue_async_work ⟨5⟩ (some 1)
        ⟨⟨some 1, none, none, some 10, some 11, some 3⟩⟩ 0).usedLoop =
      some 5 ∧
    (napi_queue_async_work ⟨5⟩ (some 2)
        ⟨⟨some 1, none, none, some 10, some 11, some 3⟩⟩ 0).usedLoop =
      some 5 ∧
    (napi_queue_async_work ⟨9⟩ (some 1)
        ⟨⟨some 1, none, none, some 10, some 11, some 3⟩⟩ 0).usedLoop =
      some 9 ∧
    iotjs_uv_work_after_cb ⟨some 7, none, none, some 10, some 11, some 3⟩ 0 =
      [Event.openScope, Event.completeCall (some 7) .ok (some 3),
        Event.closeScope] := by
  decide

/-- C9 (amended): queue obtains the event loop from the process-global
environment singleton, independently of which valid environment argument is
supplied; the stored owner context is not consulted for loop location and is
instead passed as the context argument to the execute and complete
callbacks. -/
theorem C9_loop_from_global (g : iotjs_environment_t) (env : Ptr)
    (w : uv_work_t) (st : Int) (henv : env ≠ none) :
    (napi_queue_async_work g env w st).usedLoop = some g.loop ∧
    (∀ env2 : Ptr, env2 ≠ none →
        napi_queue_async_work g env2 w st = napi_queue_async_work g env w st) ∧
    (∀ wk : iotjs_async_work_t, wk.execute ≠ none →
        iotjs_uv_work_cb wk = [Event.execCall wk.env wk.data]) ∧
    (∀ wk : iotjs_async_work_t, wk.complete ≠ none →
        iotjs_uv_work_after_cb wk st =
          [Event.openScope,
            Event.completeCall wk.env (specDomainStatus st) wk.data,
            Event.closeScope]) := by
  obtain ⟨e, rfl⟩ := ptr_eq_some_of_ne_none env henv
  refine ⟨?_, ?_, ?_, ?_⟩
  · simp only [napi_queue_async_work]
    split
    · simp at *
    · split <;> rfl
  · intro env2 h2
    obtain ⟨e2, rfl⟩ := ptr_eq_some_of_ne_none env2 h2
    rfl
  · intro wk hx
    obtain ⟨wke, wkar, wkarn, wkex, wkco, wkd⟩ := wk
    obtain ⟨x, rfl⟩ := ptr_eq_some_of_ne_none wkex hx
    rfl
  · intro wk hc
    obtain ⟨wke, wkar, wkarn, wkex, wkco, wkd⟩ := wk
    obtain ⟨c, rfl⟩ := ptr_eq_some_of_ne_none wkco hc
    rfl

/-- Witness for the amended C9 at a concrete input. -/
theorem C9_witness :
    (napi_queue_async_work ⟨5⟩ (some 1)
        ⟨⟨some 1, none, none, some 10, some 11, some 3⟩⟩ 0).usedLoop =
      some 5 ∧
    napi_queue_async_work ⟨5⟩ (some 2)
        ⟨⟨some 1, none, none, some 10, some 11, some 3⟩⟩ 0 =
      napi_queue_async_work ⟨5⟩ (some 1)
        ⟨⟨some 1, none, none, some 10, some 11, some 3⟩⟩ 0 := by
  have h := C9_loop_from_global ⟨5⟩ (some 1)
    ⟨⟨some 1, none, none, some 10, some 11, some 3⟩⟩ 0 (by decide)
  exact ⟨h.1, h.2.1 (some 2) (by decide)⟩

/-- C10: create accepts null diagnostic tags and null userData; the two
diagnostic tags, once stored, influence neither dispatch callback nor the
queue or delete operations (cancel never touches the record at all); and the
dispatch callbacks hand the stored userData pointer through verbatim to the
execute and complete callbacks. -/
theorem C10_tags_inert_data_verbatim (env ex co d : Ptr)
    (henv : env ≠ none) (hex : ex ≠ none) (hco : co ≠ none) :
    (napi_create_async_work env none none ex co none true).status = .ok ∧
    (napi_create_async_work env none none ex co d true).status = .ok ∧
    (∀ w : iotjs_async_work_t, ∀ r r2 : Ptr,
        iotjs_uv_work_cb { w with async_resource := r, async_resource_name := r2 } = iotjs_uv_work_cb w) ∧
    (∀ w : iotjs_async_work_t, ∀ r r2 : Ptr, ∀ s : Int,
        iotjs_uv_work_after_cb { w with async_resource := r, async_resource_name := r2 } s = iotjs_uv_work_after_cb w s) ∧
    (∀ e ∈ iotjs_uv_work_cb ⟨env, none, none, ex, co, d⟩,
        e = Event.execCall env d) ∧
    (∀ s : Int, ∀ e ∈ iotjs_uv_work_after_cb ⟨env, none, none, ex, co, d⟩ s,
        e = Event.openScope ∨ e = Event.closeScope ∨
          e = Event.completeCall env (specDomainStatus s) d) ∧
    (∀ r r2 : Ptr, ∀ g : iotjs_environment_t, ∀ st : Int, ∀ s2 : WorkState,
        napi_queue_async_work g env ⟨⟨env, r, r2, ex, co, d⟩⟩ st =
          napi_queue_async_work g env ⟨⟨env, none, none, ex, co, d⟩⟩ st ∧
        napi_delete_async_work env ⟨⟨env, r, r2, ex, co, d⟩⟩ s2 =
          napi_delete_async_work env ⟨⟨env, none, none, ex, co, d⟩⟩ s2) := by
  obtain ⟨e, rfl⟩ := ptr_eq_some_of_ne_none env henv
  obtain ⟨x, rfl⟩ := ptr_eq_some_of_ne_none ex hex
  obtain ⟨c, rfl⟩ := ptr_eq_some_of_ne_none co hco
  refine ⟨rfl, rfl, ?_, ?_, ?_, ?_, ?_⟩
  · intro w r r2
    obtain ⟨we, war, warn, wex, wco, wd⟩ := w
    rfl
  · intro w r r2 s
    obtain ⟨we, war, warn, wex, wco, wd⟩ := w
    rfl
  · intro ev hev
    simp [iotjs_uv_work_cb] at hev
    simp [hev]
  · intro s ev hev
    simp [iotjs_uv_work_after_cb] at hev
    rcases hev with hev | hev | hev <;> simp [hev, specDomainStatus]
  · intro r r2 g st s2
    exact ⟨rfl, rfl⟩

/-- Witness for C10 at a concrete input. -/
theorem C10_witness :
    (napi_create_async_work (some 1) none none (some 10) (some 11) none
        true).status = .ok ∧
    iotjs_uv_work_after_cb ⟨some 1, some 20, some 21, some 10, some 11,
        some 3⟩ 0 =
      iotjs_uv_work_after_cb ⟨some 1, none, none, some 10, some 11,
        some 3⟩ 0 := by
  have h := C10_tags_inert_data_verbatim (some 1) (some 10) (some 11)
    (some 3) (by decide) (by decide) (by decide)
  exact ⟨h.1,
    h.2.2.2.1 ⟨some 1, none, none, some 10, some 11, some 3⟩
      (some 20) (some 21) 0⟩
